import Mathlib

/-!
# Verification of the nox task-runner configuration (`noxfile.py`)

A shallow embedding of `noxfile.py` from the `python-bigquery` repository.
Each nox session is modelled as a pure function from its inputs (the working
directory, the interpreter version string `session.python`, the trailing
positional arguments `session.posargs`, and the process environment) to the
sequence of effects it issues: dependency installations (`session.install`),
external commands (`session.run`), recursive directory removals
(`shutil.rmtree`) and soft-skips (`session.skip`).  A `session.skip` raises
an exception in nox, so a session that skips issues no further effects; this
is modelled by returning the truncated effect list together with an outcome.
-/

namespace Noxfile

/-- One effectful step issued by a session body:
`session.install args`, `session.run args`,
`shutil.rmtree path ignore_errors`, or `session.skip reason`. -/
inductive Effect where
  | install (args : List String)
  | run (args : List String)
  | rmtree (path : String) (ignoreErrors : Bool)
  | skip (reason : String)
deriving DecidableEq, Repr

/-- The outcome of a session body: it either ran to completion (its pass/fail
status then being that of the external commands) or soft-skipped. -/
inductive Outcome where
  | completed
  | skipped
deriving DecidableEq, Repr

/-- The process environment: a partial map from variable names to values.
`os.environ.get k ""` is `(env k).getD ""`. -/
def Env : Type := String → Option String

/-- `BLACK_VERSION = "black==23.7.0"` -/
def BLACK_VERSION : String := "black==23.7.0"

/-- `BLACK_PATHS` — the fixed tuple of paths handed to the formatter by the
`lint` and `blacken` sessions. -/
def BLACK_PATHS : List String :=
  ["benchmark", "docs", "google", "samples", "samples/tests", "tests",
   "noxfile.py", "setup.py"]

/-- `DEFAULT_PYTHON_VERSION = "3.9"` -/
def DEFAULT_PYTHON_VERSION : String := "3.9"

/-- `SYSTEM_TEST_PYTHON_VERSIONS = ["3.9", "3.11", "3.12", "3.13"]` -/
def SYSTEM_TEST_PYTHON_VERSIONS : List String := ["3.9", "3.11", "3.12", "3.13"]

/-- `UNIT_TEST_PYTHON_VERSIONS = ["3.9", "3.11", "3.12", "3.13"]` -/
def UNIT_TEST_PYTHON_VERSIONS : List String := ["3.9", "3.11", "3.12", "3.13"]

/-- `str(CURRENT_DIRECTORY / "testing" / f"constraints-{session.python}.txt")`:
the pathlib `/` operator joins path components with `"/"`.  `cwd` stands for
`CURRENT_DIRECTORY` (the absolute directory containing the noxfile). -/
def constraints_path (cwd python : String) : String :=
  cwd ++ "/" ++ "testing" ++ "/" ++ ("constraints-" ++ python ++ ".txt")

/-- The extras chosen by `default` for the first (lowest) unit-test version:
the bracketed list in
`".[bqstorage,pandas,ipywidgets,geopandas,matplotlib,tqdm,opentelemetry,bigquery_v2]"`. -/
def LOWEST_UNIT_EXTRAS : List String :=
  ["bqstorage", "pandas", "ipywidgets", "geopandas", "matplotlib", "tqdm",
   "opentelemetry", "bigquery_v2"]

/-- The `install_target` chosen by `default` as a function of the
`install_extras` flag and `session.python`. -/
def default_install_target (install_extras : Bool) (python : String) : String :=
  if install_extras && python == UNIT_TEST_PYTHON_VERSIONS.headD "" then
    ".[bqstorage,pandas,ipywidgets,geopandas,matplotlib,tqdm,opentelemetry,bigquery_v2]"
  else if install_extras then
    ".[all]"
  else
    "."

/-- The body of `default(session, install_extras=True)` — the shared unit-test
session procedure. `os.path.join("tests", "unit")` is `"tests/unit"`. -/
def default_trace (cwd python : String) (posargs : List String)
    (install_extras : Bool) : List Effect :=
  let cp := constraints_path cwd python
  [Effect.install ["pytest", "google-cloud-testutils", "pytest-cov",
      "pytest-xdist", "freezegun", "-c", cp],
   Effect.install ["-e", default_install_target install_extras python, "-c", cp]]
  ++ (if python == UNIT_TEST_PYTHON_VERSIONS.headD "" then
        [Effect.run ["python", "-m", "pip", "uninstall", "pandas-gbq", "-y"]]
      else [])
  ++ [Effect.run ["python", "-m", "pip", "freeze"],
      Effect.run (["py.test", "-n=8", "--quiet",
        "-W default::PendingDeprecationWarning",
        "--cov=google/cloud/bigquery", "--cov=tests/unit", "--cov-append",
        "--cov-config=.coveragerc", "--cov-report=", "--cov-fail-under=0",
        "tests/unit"] ++ posargs)]

/-- The `unit` session simply calls `default(session)` with extras enabled. -/
def unit_trace (cwd python : String) (posargs : List String) : List Effect :=
  default_trace cwd python posargs true

/-- The body of the `system` session.  `session.skip` raises, so when the
credentials variable is unset or empty the session stops right there; the
guard `not os.environ.get("GOOGLE_APPLICATION_CREDENTIALS", "")` is true
exactly when the retrieved string is empty. -/
def system_session (cwd python : String) (posargs : List String) (env : Env) :
    Outcome × List Effect :=
  let cp := constraints_path cwd python
  if ((env "GOOGLE_APPLICATION_CREDENTIALS").getD "") == "" then
    (Outcome.skipped,
     [Effect.skip "Credentials must be set via environment variable."])
  else
    (Outcome.completed,
     [Effect.install ["--pre", "grpcio!=1.49.0rc1", "-c", cp],
      Effect.install ["pytest", "psutil", "pytest-xdist",
        "google-cloud-testutils", "-c", cp]]
     ++ (if ((env "GOOGLE_API_USE_CLIENT_CERTIFICATE").getD "") == "true" then
           [Effect.install ["google-cloud-storage", "pyopenssl"]]
         else
           [Effect.install ["google-cloud-storage", "-c", cp]])
     ++ [Effect.install ["google-cloud-datacatalog", "-c", cp],
         Effect.install ["google-cloud-resource-manager", "-c", cp],
         Effect.install ["-e",
           "." ++ (if python == "3.11" || python == "3.12" then
                     "[bqstorage,ipywidgets,pandas,tqdm,opentelemetry]"
                   else "[all]"), "-c", cp]]
     ++ (if python == SYSTEM_TEST_PYTHON_VERSIONS.headD "" then
           [Effect.run ["python", "-m", "pip", "uninstall", "pandas-gbq", "-y"]]
         else [])
     ++ [Effect.run ["python", "-m", "pip", "freeze"],
         Effect.run (["py.test", "-n=auto", "--quiet",
           "-W default::PendingDeprecationWarning", "tests/system"]
           ++ posargs)])

/-- The body of the `snippets` session. -/
def snippets_trace (cwd python : String) (posargs : List String) :
    List Effect :=
  let cp := constraints_path cwd python
  [Effect.install ["pytest", "pytest-xdist", "google-cloud-testutils",
     "-c", cp],
   Effect.install ["google-cloud-storage", "-c", cp],
   Effect.install ["grpcio", "-c", cp],
   Effect.install ["-e",
     "." ++ (if python == "3.11" || python == "3.12" then
               "[bqstorage,pandas,ipywidgets,geopandas,tqdm,opentelemetry,bigquery_v2]"
             else "[all]"), "-c", cp],
   Effect.run ["python", "-m", "pip", "freeze"],
   Effect.run (["py.test", "-n=auto", "docs/snippets.py"] ++ posargs),
   Effect.run (["py.test", "-n=auto", "samples",
     "-W default::PendingDeprecationWarning",
     "--ignore=samples/desktopapp", "--ignore=samples/magics",
     "--ignore=samples/geography", "--ignore=samples/notebooks",
     "--ignore=samples/snippets"] ++ posargs)]

/-- `\s` of Python regular expressions on ASCII text: space, tab, newline,
carriage return, vertical tab, form feed. -/
def isPySpace (c : Char) : Bool :=
  c == ' ' || c == '\t' || c == '\n' || c == '\r' || c == '\x0b' || c == '\x0c'

/-- The split position chosen by the greedy capture of
`^\s*(\S+)(?===\S+)` inside one maximal run of non-space characters:
the largest `i ≥ 1` such that the characters at positions `i, i+1` are
`"=="` and at least one further character of the run follows them. -/
def lastEqEqSplit (cs : List Char) : Option Nat :=
  (List.range cs.length).reverse.find? fun i =>
    decide (1 ≤ i) && decide (i + 2 < cs.length)
      && ((cs.drop i).take 2 == ['=', '='])

/-- The dependency name, if any, that `re.finditer(r"^\s*(\S+)(?===\S+)", _,
flags=re.MULTILINE)` extracts from one line: leading whitespace is skipped,
the first run of non-space characters is taken, and the greedy `\S+` capture
keeps everything before the last `"=="` that still has a non-space character
after it. -/
def depFromLine (line : String) : Option String :=
  let run := (line.toList.dropWhile isPySpace).takeWhile (fun c => !isPySpace c)
  match lastEqEqSplit run with
  | some i => some (String.mk (run.take i))
  | none => none

/-- `deps` as computed by `prerelease_deps` from the text of the
lowest-version constraints file. -/
def parseDeps (text : String) : List String :=
  (text.splitOn "\n").filterMap depFromLine

/-- The body of the `prerelease_deps` session.  `constraints_text` is the
content read from `testing/constraints-<lowest unit version>.txt`.  Note that
the three `py.test` invocations use fixed argument lists: `session.posargs`
is never referenced. -/
def prerelease_deps_trace (constraints_text : String)
    (_posargs : List String) : List Effect :=
  let deps := parseDeps constraints_text
  [Effect.install deps,
   Effect.install ["--pre", "--upgrade", "freezegun",
     "google-cloud-datacatalog", "google-cloud-resource-manager",
     "google-cloud-storage", "google-cloud-testutils", "psutil", "pytest",
     "pytest-xdist", "pytest-cov"],
   Effect.install ["--extra-index-url",
     "https://pypi.anaconda.org/scientific-python-nightly-wheels/simple",
     "--prefer-binary", "--pre", "--upgrade", "pyarrow"],
   Effect.install ["--pre", "--upgrade", "IPython", "ipykernel",
     "ipywidgets", "tqdm", "git+https://github.com/pypa/packaging.git",
     "pandas"],
   Effect.install ["--pre", "--upgrade", "--no-deps", "google-api-core",
     "google-cloud-bigquery-storage", "google-cloud-core",
     "google-resumable-media", "db-dtypes", "grpcio", "protobuf"],
   Effect.install ["-e", ".", "--no-deps"],
   Effect.run ["python", "-m", "pip", "freeze"],
   Effect.run ["py.test", "-n=auto", "tests/unit",
     "-W default::PendingDeprecationWarning"],
   Effect.run ["py.test", "-n=auto", "tests/system",
     "-W default::PendingDeprecationWarning"],
   Effect.run ["py.test", "-n=auto", "samples/tests",
     "-W default::PendingDeprecationWarning"]]

/-- The body of the `lint` session.  `os.path.join` joins with `"/"`. -/
def lint_trace : List Effect :=
  [Effect.install ["flake8", BLACK_VERSION],
   Effect.install ["-e", "."],
   Effect.run ["python", "-m", "pip", "freeze"],
   Effect.run ["flake8", "google/cloud/bigquery"],
   Effect.run ["flake8", "tests"],
   Effect.run ["flake8", "docs/samples"],
   Effect.run ["flake8", "docs/snippets.py"],
   Effect.run ["flake8", "benchmark"],
   Effect.run (["black", "--check"] ++ BLACK_PATHS)]

/-- The body of the `blacken` session. -/
def blacken_trace : List Effect :=
  [Effect.install [BLACK_VERSION],
   Effect.run ["python", "-m", "pip", "freeze"],
   Effect.run (["black"] ++ BLACK_PATHS)]

/-- The body of the `docs` session.
`os.path.join("docs", "_build", "doctrees", "")` is `"docs/_build/doctrees/"`
and `os.path.join("docs", "")` is `"docs/"`. -/
def docs_trace : List Effect :=
  [Effect.install ["sphinxcontrib-applehelp==1.0.4",
     "sphinxcontrib-devhelp==1.0.2", "sphinxcontrib-htmlhelp==2.0.1",
     "sphinxcontrib-qthelp==1.0.3", "sphinxcontrib-serializinghtml==1.1.5",
     "sphinx==4.5.0", "alabaster", "recommonmark"],
   Effect.install ["google-cloud-storage"],
   Effect.install ["-e", ".[all]"],
   Effect.rmtree "docs/_build" true,
   Effect.run ["python", "-m", "pip", "freeze"],
   Effect.run ["sphinx-build", "-W", "-T", "-N", "-b", "html", "-d",
     "docs/_build/doctrees/", "docs/", "docs/_build/html/"]]

/-- The body of the `docfx` session. -/
def docfx_trace : List Effect :=
  [Effect.install ["-e", "."],
   Effect.install ["sphinxcontrib-applehelp==1.0.4",
     "sphinxcontrib-devhelp==1.0.2", "sphinxcontrib-htmlhelp==2.0.1",
     "sphinxcontrib-qthelp==1.0.3", "sphinxcontrib-serializinghtml==1.1.5",
     "gcp-sphinx-docfx-yaml", "alabaster", "recommonmark"],
   Effect.rmtree "docs/_build" true,
   Effect.run ["python", "-m", "pip", "freeze"],
   Effect.run ["sphinx-build", "-T", "-N", "-D",
     "extensions=sphinx.ext.autodoc,sphinx.ext.autosummary,docfx_yaml.extension,sphinx.ext.intersphinx,sphinx.ext.coverage,sphinx.ext.napoleon,sphinx.ext.todo,sphinx.ext.viewcode,recommonmark",
     "-b", "html", "-d", "docs/_build/doctrees/", "docs/",
     "docs/_build/html/"]]

/-! ## A small interpreter for the filesystem-relevant effects

Only `shutil.rmtree` touches the directory tree directly; the state is the
set of existing directories.  `rmtree` with `ignore_errors=True` always
succeeds; without it, it raises (fails) when the path does not exist. -/

/-- Remove a directory and everything below it from the set of existing
directories. -/
def removeTree (fs : List String) (path : String) : List String :=
  fs.filter fun q => !(q == path || (path ++ "/").isPrefixOf q)

/-- Apply one effect to the directory state; `none` means the step raised. -/
def applyEffect (fs : List String) : Effect → Option (List String)
  | Effect.rmtree path ignoreErrors =>
      if ignoreErrors then some (removeTree fs path)
      else if fs.contains path then some (removeTree fs path) else none
  | _ => some fs

/-- Run a list of effects from a directory state, stopping at the first
raised step. -/
def runEffects : List String → List Effect → Option (List String)
  | fs, [] => some fs
  | fs, e :: es =>
      match applyEffect fs e with
      | some fs2 => runEffects fs2 es
      | none => none

/-! ## The timing decorator `_calculate_duration` -/

/-- Python `f"{n:0>2}"`: the decimal rendering of `n`, left-padded with `'0'`
to width 2. -/
def pad2 (n : Nat) : String :=
  let s := toString n
  if s.length < 2 then String.mk (List.replicate (2 - s.length) '0') ++ s
  else s

/-- The value returned by the wrapped function together with the line the
wrapper prints. -/
structure TimedResult (β : Type) where
  result : β
  printed : String

/-- The wrapper produced by `_calculate_duration`: `elapsed` is
`round(end - start)`, the rounded wall-clock duration in whole seconds
(nonnegative, since `time.monotonic` is monotone). -/
def calculate_duration_wrapper {α β : Type} (func : α → β) (elapsed : Nat)
    (a : α) : TimedResult β :=
  let result := func a
  let total_seconds := elapsed
  let hours := total_seconds / 3600
  let remaining_seconds := total_seconds % 3600
  let minutes := remaining_seconds / 60
  let seconds := remaining_seconds % 60
  let human_time := toString hours ++ ":" ++ pad2 minutes ++ ":" ++ pad2 seconds
  { result := result,
    printed := "Session ran in " ++ toString total_seconds ++ " seconds ("
      ++ human_time ++ ")" }

/-! ## The session registry -/

/-- The names of all sessions registered in the file (every function carrying
the `@nox.session` decorator), in source order. -/
def registeredSessions : List String :=
  ["unit", "unit_noextras", "mypy", "pytype", "system", "mypy_samples",
   "snippets", "cover", "prerelease_deps", "lint", "lint_setup_py",
   "blacken", "docs", "docfx"]

/-- `nox.options.sessions` — the default run order. -/
def defaultSessions : List String :=
  ["unit_noextras", "unit", "system", "snippets", "cover", "lint",
   "lint_setup_py", "blacken", "mypy", "mypy_samples", "pytype", "docs"]

/-- Modelled from the spec: the registry dispatch is implemented by the
external automation tool (nox), whose code is not part of this repository;
per the spec, given a task name it locates and executes the corresponding
session procedure, and an unknown name "fails with a \"no such session\"
error surfaced to the invoking CLI" with non-zero exit, never a silent
no-op.  The result is either the name of the executed session or the error
message paired with the non-zero exit status. -/
def dispatchSession (name : String) : Except (String × Nat) String :=
  if registeredSessions.contains name then Except.ok name
  else Except.error ("no such session", 1)

/-! ## Helper projections used by the theorems -/

/-- The argument lists of the test-runner (`py.test`) invocations in a
trace. -/
def pytestRuns (es : List Effect) : List (List String) :=
  es.filterMap fun e =>
    match e with
    | Effect.run args => if args.headD "" == "py.test" then some args else none
    | _ => none

/-- The argument lists of the documentation-generator (`sphinx-build`)
invocations in a trace. -/
def sphinxRuns (es : List Effect) : List (List String) :=
  es.filterMap fun e =>
    match e with
    | Effect.run args =>
        if args.headD "" == "sphinx-build" then some args else none
    | _ => none

/-- Whether an effect is a dependency installation or an external command —
the "effectful steps" of a session body, as opposed to a soft-skip. -/
def isInstallOrRun : Effect → Bool
  | Effect.install _ => true
  | Effect.run _ => true
  | _ => false

/-- Modelled from the spec: the `[all]` extras bundle is resolved by the
package metadata (`setup.py`), which is not part of this repository slice.
Per the spec, the lowest version "deliberately omit[s] one optional extra"
relative to `[all]`, and the source comment identifies it: "we avoid
installing the [ipython] extra".  So `[all]` is the lowest version's extras
plus `ipython`. -/
def ALL_EXTRAS : List String :=
  ["bqstorage", "pandas", "ipywidgets", "geopandas", "ipython", "matplotlib",
   "tqdm", "opentelemetry", "bigquery_v2"]

/-- Modelled from the spec: the set of extras a unit-test session with extras
enabled resolves and installs for interpreter version `python` — the
explicit narrowed list on the lowest listed version, the `[all]` bundle on
every other version. -/
def extrasInstalled (python : String) : List String :=
  if python == UNIT_TEST_PYTHON_VERSIONS.headD "" then LOWEST_UNIT_EXTRAS
  else ALL_EXTRAS

/-! ## Theorems -/

/-- A list stays a suffix when an element is prepended to the larger
list. -/
theorem suffix_cons_self {α : Type} (a : α) {l₁ l₂ : List α}
    (h : l₁ <:+ l₂) : l₁ <:+ a :: l₂ :=
  h.trans (List.suffix_cons a l₂)

/-- The constraints-file path, written as a single joined string. -/
theorem constraints_path_eq (cwd v : String) :
    constraints_path cwd v = cwd ++ "/testing/constraints-" ++ v ++ ".txt" := by
  apply String.ext
  simp [constraints_path]

/-- C1: For every invocation of the system-test session, if the credentials
environment variable `GOOGLE_APPLICATION_CREDENTIALS` is unset or set to the
empty string, the session produces a skip outcome (a soft-skip, carrying the
skip message), not a failure. -/
theorem C1_system_soft_skip (cwd python : String) (posargs : List String)
    (env : Env)
    (h : env "GOOGLE_APPLICATION_CREDENTIALS" = none
       ∨ env "GOOGLE_APPLICATION_CREDENTIALS" = some "") :
    (system_session cwd python posargs env).1 = Outcome.skipped
    ∧ (system_session cwd python posargs env).2
        = [Effect.skip "Credentials must be set via environment variable."] := by
  rcases h with h | h <;> simp [system_session, h]

/-- Witness for C1 at a concrete environment with the variable unset. -/
theorem C1_system_soft_skip_witness :
    ((fun _ => none : Env) "GOOGLE_APPLICATION_CREDENTIALS" = none
       ∨ (fun _ => none : Env) "GOOGLE_APPLICATION_CREDENTIALS" = some "")
    ∧ (system_session "/repo" "3.9" [] (fun _ => none)).1 = Outcome.skipped :=
  ⟨Or.inl rfl,
   (C1_system_soft_skip "/repo" "3.9" [] (fun _ => none) (Or.inl rfl)).1⟩

/-- C10: when the credentials variable is unset or empty, the credentials
check is the first effectful step of the system session: the whole trace is
the single skip, so no dependency installation and no external command is
issued by the skipped session. -/
theorem C10_system_skip_atomic (cwd python : String) (posargs : List String)
    (env : Env)
    (h : env "GOOGLE_APPLICATION_CREDENTIALS" = none
       ∨ env "GOOGLE_APPLICATION_CREDENTIALS" = some "") :
    ∀ e ∈ (system_session cwd python posargs env).2,
      isInstallOrRun e = false := by
  rcases h with h | h <;> simp [system_session, h, isInstallOrRun]

/-- Witness for C10 at a concrete environment with the variable empty. -/
theorem C10_system_skip_atomic_witness :
    ((fun _ => some "" : Env) "GOOGLE_APPLICATION_CREDENTIALS" = none
       ∨ (fun _ => some "" : Env) "GOOGLE_APPLICATION_CREDENTIALS" = some "")
    ∧ ∀ e ∈ (system_session "/repo" "3.13" ["-k", "x"]
          (fun _ => some "")).2, isInstallOrRun e = false :=
  ⟨Or.inr rfl,
   C10_system_skip_atomic "/repo" "3.13" ["-k", "x"] (fun _ => some "")
     (Or.inr rfl)⟩

/-- C2: for every interpreter version in the unit-test list and in the
system/snippets list, the constraints-file path is built deterministically
from the version by the convention
`<current directory>/testing/constraints-<version>.txt`, and it is exactly
the path the unit, snippets, and system sessions pin their first
installation against. -/
theorem C2_constraints_path_convention (cwd v : String)
    (posargs : List String)
    (_hv : v ∈ UNIT_TEST_PYTHON_VERSIONS ∨ v ∈ SYSTEM_TEST_PYTHON_VERSIONS) :
    constraints_path cwd v = cwd ++ "/testing/constraints-" ++ v ++ ".txt"
    ∧ (unit_trace cwd v posargs).head? = some (Effect.install
        ["pytest", "google-cloud-testutils", "pytest-cov", "pytest-xdist",
         "freezegun", "-c", constraints_path cwd v])
    ∧ (snippets_trace cwd v posargs).head? = some (Effect.install
        ["pytest", "pytest-xdist", "google-cloud-testutils", "-c",
         constraints_path cwd v])
    ∧ (system_session cwd v posargs (fun _ => some "creds.json")).2.head?
        = some (Effect.install ["--pre", "grpcio!=1.49.0rc1", "-c",
            constraints_path cwd v]) := by
  refine ⟨constraints_path_eq cwd v, ?_, ?_, ?_⟩
  · simp [unit_trace, default_trace]
  · simp [snippets_trace]
  · simp [system_session]

/-- Witness for C2 at the version `"3.11"`. -/
theorem C2_constraints_path_convention_witness :
    ("3.11" ∈ UNIT_TEST_PYTHON_VERSIONS
       ∨ "3.11" ∈ SYSTEM_TEST_PYTHON_VERSIONS)
    ∧ constraints_path "/repo" "3.11"
        = "/repo" ++ "/testing/constraints-" ++ "3.11" ++ ".txt" :=
  ⟨Or.inl (by decide),
   (C2_constraints_path_convention "/repo" "3.11" [] (Or.inl (by decide))).1⟩

/-- C7: the timing decorator's wrapper returns exactly the wrapped
function's result, and for every nonnegative rounded duration `d` it prints
`d` together with `H:MM:SS` where `H = d / 3600`, `MM = (d % 3600) / 60`
zero-padded to two digits, and `SS = d % 60` zero-padded to two digits, so
that `MM` and `SS` are always between 0 and 59. -/
theorem C7_calculate_duration {α β : Type} (func : α → β) (a : α) (d : Nat) :
    (calculate_duration_wrapper func d a).result = func a
    ∧ (calculate_duration_wrapper func d a).printed
        = "Session ran in " ++ toString d ++ " seconds ("
          ++ toString (d / 3600) ++ ":" ++ pad2 ((d % 3600) / 60) ++ ":"
          ++ pad2 (d % 60) ++ ")"
    ∧ (d % 3600) / 60 ≤ 59 ∧ d % 60 ≤ 59 := by
  refine ⟨rfl, ?_, by omega, by omega⟩
  simp only [calculate_duration_wrapper,
    Nat.mod_mod_of_dvd d (by norm_num : (60 : ℕ) ∣ 3600),
    String.append_assoc]

/-- C8: the formatter path list is a fixed, non-empty sequence of paths
including the library source directory, the tests directory, the docs and
samples directories, and the noxfile itself; the lint session runs the
formatter in check mode over exactly this list and the blacken session runs
it in fix mode over exactly this list. -/
theorem C8_black_paths :
    BLACK_PATHS ≠ []
    ∧ "google" ∈ BLACK_PATHS ∧ "tests" ∈ BLACK_PATHS
    ∧ "docs" ∈ BLACK_PATHS ∧ "samples" ∈ BLACK_PATHS
    ∧ "noxfile.py" ∈ BLACK_PATHS
    ∧ Effect.run (["black", "--check"] ++ BLACK_PATHS) ∈ lint_trace
    ∧ Effect.run (["black"] ++ BLACK_PATHS) ∈ blacken_trace := by
  decide

/-- C9: requesting a session name outside the registered set yields the
"no such session" error with non-zero exit status — never a silent no-op —
while every registered name dispatches to (executes) its session. -/
theorem C9_session_registry (name : String)
    (h : name ∉ registeredSessions) :
    dispatchSession name = Except.error ("no such session", 1)
    ∧ (1 : Nat) ≠ 0
    ∧ ∀ n ∈ registeredSessions, dispatchSession n = Except.ok n := by
  refine ⟨?_, by decide, by intro n hn; fin_cases hn <;> rfl⟩
  simp [dispatchSession]
  simpa using h

/-- Witness for C9 at the unregistered name `"frobnicate"`. -/
theorem C9_session_registry_witness :
    "frobnicate" ∉ registeredSessions
    ∧ dispatchSession "frobnicate" = Except.error ("no such session", 1) :=
  ⟨by decide, (C9_session_registry "frobnicate" (by decide)).1⟩

/-- C3: with extras enabled, the lowest listed unit-test version installs
the narrowed extras target (the explicit list, matching the source string),
every other listed version installs `.[all]`; the narrowed extras set is a
strict subset of the `[all]` set, omitting exactly one optional extra
(`ipython`); and exactly the lowest version's session afterwards uninstalls
the recommended-but-optional dependency `pandas-gbq`. -/
theorem C3_lowest_version_narrowed_extras (cwd v : String)
    (posargs : List String) (hv : v ∈ UNIT_TEST_PYTHON_VERSIONS) :
    default_install_target true (UNIT_TEST_PYTHON_VERSIONS.headD "")
        = ".[" ++ String.intercalate "," LOWEST_UNIT_EXTRAS ++ "]"
    ∧ (v ≠ UNIT_TEST_PYTHON_VERSIONS.headD "" →
        default_install_target true v = ".[all]")
    ∧ extrasInstalled (UNIT_TEST_PYTHON_VERSIONS.headD "")
        ⊆ extrasInstalled v
    ∧ (v ≠ UNIT_TEST_PYTHON_VERSIONS.headD "" →
        ¬ extrasInstalled v
            ⊆ extrasInstalled (UNIT_TEST_PYTHON_VERSIONS.headD "")
        ∧ (extrasInstalled v).length
            = (extrasInstalled (UNIT_TEST_PYTHON_VERSIONS.headD "")).length
              + 1
        ∧ "ipython" ∈ extrasInstalled v
        ∧ "ipython" ∉ extrasInstalled (UNIT_TEST_PYTHON_VERSIONS.headD ""))
    ∧ Effect.run ["python", "-m", "pip", "uninstall", "pandas-gbq", "-y"]
        ∈ default_trace cwd (UNIT_TEST_PYTHON_VERSIONS.headD "") posargs true
    ∧ (v ≠ UNIT_TEST_PYTHON_VERSIONS.headD "" →
        Effect.run ["python", "-m", "pip", "uninstall", "pandas-gbq", "-y"]
          ∉ default_trace cwd v posargs true) := by
  fin_cases hv <;>
    refine ⟨by decide, fun h => ?_, by decide, fun h => ?_, ?_, fun h => ?_⟩ <;>
    first
      | exact absurd rfl h
      | decide
      | (simp [default_trace] <;> decide)

/-- Witness for C3 at the non-lowest version `"3.12"`. -/
theorem C3_lowest_version_narrowed_extras_witness :
    "3.12" ∈ UNIT_TEST_PYTHON_VERSIONS
    ∧ default_install_target true "3.12" = ".[all]" :=
  ⟨by decide,
   (C3_lowest_version_narrowed_extras "/repo" "3.12" [] (by decide)).2.1
     (by decide)⟩

/-- C4: each documentation session (docs and docfx) removes the output
directory `docs/_build` with `ignore_errors` set — an operation that cannot
fail even when the directory is absent — before its documentation-generator
invocation, so its filesystem steps succeed from every prior directory
state; in particular two consecutive invocations succeed, the second never
failing on the first one's stale output, and the generator always starts
with the output directory absent. -/
theorem C4_docs_rebuild_idempotent (fs : List String) :
    (Effect.rmtree "docs/_build" true ∈ docs_trace.take 4
       ∧ sphinxRuns (docs_trace.take 4) = [] ∧ sphinxRuns docs_trace ≠ [])
    ∧ (Effect.rmtree "docs/_build" true ∈ docfx_trace.take 3
       ∧ sphinxRuns (docfx_trace.take 3) = [] ∧ sphinxRuns docfx_trace ≠ [])
    ∧ runEffects fs docs_trace = some (removeTree fs "docs/_build")
    ∧ runEffects fs docfx_trace = some (removeTree fs "docs/_build")
    ∧ ((runEffects fs docs_trace).bind
        fun fs2 => runEffects fs2 docs_trace).isSome = true
    ∧ ((runEffects fs docfx_trace).bind
        fun fs2 => runEffects fs2 docfx_trace).isSome = true
    ∧ "docs/_build" ∉ removeTree fs "docs/_build" := by
  refine ⟨by decide, by decide, ?_, ?_, ?_, ?_, ?_⟩
  · simp [docs_trace, runEffects, applyEffect]
  · simp [docfx_trace, runEffects, applyEffect]
  · simp [docs_trace, runEffects, applyEffect]
  · simp [docfx_trace, runEffects, applyEffect]
  · simp [removeTree, List.mem_filter]

/-- C5 as stated is false: the prerelease-dependency session never forwards
the trailing positional arguments — with posargs `["--zzz"]` it still issues
test-runner invocations with its fixed argument lists, none of which ends in
`"--zzz"`. -/
theorem C5_posargs_counterexample :
    ∃ args ∈ pytestRuns (prerelease_deps_trace "" ["--zzz"]),
      ¬ ["--zzz"] <:+ args := by
  decide

/-- C5 amended: the unit (default), system, and snippets sessions forward
the trailing positional arguments verbatim, in order, as the final arguments
of every test-runner invocation; the prerelease-dependency session instead
invokes the test runner with fixed argument lists, forwarding nothing. -/
theorem C5_posargs_forwarding (cwd python : String) (posargs : List String)
    (env : Env) (install_extras : Bool) (text : String)
    (hcred : (env "GOOGLE_APPLICATION_CREDENTIALS").getD "" ≠ "") :
    (∀ args ∈ pytestRuns (default_trace cwd python posargs install_extras),
        posargs <:+ args)
    ∧ (∀ args ∈ pytestRuns (system_session cwd python posargs env).2,
        posargs <:+ args)
    ∧ (∀ args ∈ pytestRuns (snippets_trace cwd python posargs),
        posargs <:+ args)
    ∧ pytestRuns (prerelease_deps_trace text posargs)
        = [["py.test", "-n=auto", "tests/unit",
            "-W default::PendingDeprecationWarning"],
           ["py.test", "-n=auto", "tests/system",
            "-W default::PendingDeprecationWarning"],
           ["py.test", "-n=auto", "samples/tests",
            "-W default::PendingDeprecationWarning"]] := by
  refine ⟨?_, ?_, ?_, by simp [prerelease_deps_trace, pytestRuns]⟩
  · intro args hargs
    simp [default_trace, pytestRuns] at hargs
    rcases hargs with ⟨a, ⟨-, rfl⟩, hmatch⟩ | rfl
    · simp at hmatch
    · repeat apply suffix_cons_self
      exact List.suffix_refl _
  · have h1 : (((env "GOOGLE_APPLICATION_CREDENTIALS").getD "") == "")
        = false := by simpa using hcred
    intro args hargs
    by_cases h2 : ((env "GOOGLE_API_USE_CLIENT_CERTIFICATE").getD "")
        = "true" <;>
      simp [system_session, pytestRuns, h1, h2] at hargs <;>
      rcases hargs with ⟨a, ⟨-, rfl⟩, hmatch⟩ | rfl <;>
      first
        | simp at hmatch
        | (repeat apply suffix_cons_self
           exact List.suffix_refl _)
  · intro args hargs
    simp [snippets_trace, pytestRuns] at hargs
    rcases hargs with rfl | rfl <;>
      · repeat apply suffix_cons_self
        exact List.suffix_refl _

/-- Witness for C5 (amended) at a concrete environment with credentials
set. -/
theorem C5_posargs_forwarding_witness :
    ((fun _ => some "creds.json" : Env)
        "GOOGLE_APPLICATION_CREDENTIALS").getD "" ≠ ""
    ∧ ∀ args ∈ pytestRuns (default_trace "/repo" "3.9" ["-k", "foo"] true),
        ["-k", "foo"] <:+ args :=
  ⟨by decide,
   (C5_posargs_forwarding "/repo" "3.9" ["-k", "foo"]
     (fun _ => some "creds.json") true "" (by decide)).1⟩

/-- C6 as stated is false: the docfx session's documentation-generator
invocation does not carry the warnings-as-errors flag `-W`. -/
theorem C6_docfx_counterexample :
    ∃ args ∈ sphinxRuns docfx_trace, "-W" ∉ args := by
  decide

/-- C6 amended: the HTML docs session invokes the documentation generator
with warnings-as-errors (`-W`) enabled, while the structured-YAML docfx
session invokes it without `-W`; each session issues exactly one generator
invocation. -/
theorem C6_warnings_as_errors :
    (∀ args ∈ sphinxRuns docs_trace, "-W" ∈ args)
    ∧ (sphinxRuns docs_trace).length = 1
    ∧ (∀ args ∈ sphinxRuns docfx_trace, "-W" ∉ args)
    ∧ (sphinxRuns docfx_trace).length = 1 := by
  decide

end Noxfile
